import Mathlib

/-!
Verification of the gongio-mcp server's validation and formatting pipeline.

Strings of the TypeScript source are modelled as `List Char` (one element per
UTF-16 code unit of the JavaScript string; the transcripts and ids in scope are
plain text, so code units and characters coincide).  JavaScript numbers that
the remote API supplies as non-negative integer counts (durations in seconds,
character offsets and lengths, record totals) are modelled as `Nat`; for such
values `Math.round(n / 60)` equals `(n + 30) / 60` in natural-number division.
An `Option` field models a JavaScript property that may be `null`/`undefined`
(`none`) or absent from an object literal.  Environment-dependent date
rendering (`toLocaleDateString`/`toLocaleString`) is abstracted as an explicit
`renderDate` function argument.
-/

namespace Gongio

/-- `Array.prototype.join(sep)`: concatenation of the parts with `sep`
between consecutive parts. -/
def joinWith (sep : List Char) : List (List Char) → List Char
  | [] => []
  | [x] => x
  | x :: y :: xs => x ++ sep ++ joinWith sep (y :: xs)

/-- `escapeMarkdown` from formatters.ts: the three chained `replace` calls
`\|` for `|`, a space for `\n`, and deletion of `\r`. -/
def escapeMarkdown (text : List Char) : List Char :=
  ((text.flatMap fun c => if c = '|' then ['\\', '|'] else [c]).map
      fun c => if c = '\n' then ' ' else c).filter fun c => c != '\r'

/-- `sentenceSchema`: one sentence of a monologue.  The source's `end` field is
named `stop` here (`end` is a Lean keyword); neither time field is read by the
formatters. -/
structure Sentence where
  start : Nat
  stop : Nat
  text : List Char
  deriving DecidableEq

/-- `transcriptEntrySchema`: a monologue owned by one speaker. -/
structure TranscriptEntry where
  speakerId : List Char
  topic : Option (List Char) := none
  sentences : List Sentence
  deriving DecidableEq

/-- `callTranscriptSchema`. -/
structure CallTranscript where
  callId : List Char
  transcript : List TranscriptEntry
  deriving DecidableEq

/-- The `Party` interface of formatters.ts (the fields of `partySchema` the
formatters read). -/
structure Party where
  id : Option (List Char) := none
  name : Option (List Char) := none
  emailAddress : Option (List Char) := none
  speakerId : Option (List Char) := none
  affiliation : Option (List Char) := none
  deriving DecidableEq

/-- The display name computed for a party inside the speaker-map loop:
`party.name ?? party.emailAddress ?? `Speaker ${party.speakerId}``. -/
def partyLabel (party : Party) (sid : List Char) : List Char :=
  party.name.getD (party.emailAddress.getD ("Speaker ".toList ++ sid))

/-- One iteration of the speaker-map loop in `formatCallTranscript`:
`if (party.speakerId) { speakerNames.set(party.speakerId, name) }`.
The JavaScript truthiness test skips a `null`/`undefined` and also an empty
`speakerId`; `Map.set` overwrites an existing key. -/
def speakerInsert (m : List Char → Option (List Char)) (party : Party) :
    List Char → Option (List Char) :=
  match party.speakerId with
  | some sid =>
      if sid ≠ [] then fun k => if k = sid then some (partyLabel party sid) else m k
      else m
  | none => m

/-- The speaker-id-to-name `Map` built at the top of `formatCallTranscript`;
when no party list is supplied the map stays empty. -/
def buildSpeakerNames (parties : Option (List Party)) :
    List Char → Option (List Char) :=
  match parties with
  | none => fun _ => none
  | some ps => ps.foldl speakerInsert fun _ => none

/-- `speakerNames.get(entry.speakerId) ?? `Speaker ${entry.speakerId}``. -/
def resolveSpeakerName (m : List Char → Option (List Char)) (sid : List Char) :
    List Char :=
  (m sid).getD ("Speaker ".toList ++ sid)

/-- One line of the reconstructed transcript:
`[${escapeMarkdown(speakerName)}]: ${escapeMarkdown(text)}\n` where `text`
is the monologue's sentences joined by a space. -/
def monologueLine (m : List Char → Option (List Char)) (entry : TranscriptEntry) :
    List Char :=
  let speakerName := resolveSpeakerName m entry.speakerId
  let text := joinWith [' '] (entry.sentences.map Sentence.text)
  "[".toList ++ escapeMarkdown speakerName ++ "]: ".toList
    ++ escapeMarkdown text ++ "\n".toList

/-- `fullText`: the monologue lines joined with `'\n'`
(`fullLines.join('\n')` in the source). -/
def transcriptFullText (t : CallTranscript) (parties : Option (List Party)) :
    List Char :=
  joinWith ['\n'] (t.transcript.map (monologueLine (buildSpeakerNames parties)))

/-- `fullText.slice(offset, offset + maxLength)` for non-negative arguments. -/
def windowSlice (fullText : List Char) (offset maxLength : Nat) : List Char :=
  (fullText.drop offset).take maxLength

/-- `Math.min(offset + maxLength, totalLength)`: the upper bound printed in the
status line. -/
def reportedUpperBound (offset maxLength totalLength : Nat) : Nat :=
  min (offset + maxLength) totalLength

/-- The heading line `## Transcript (Call ${transcript.callId})\n`. -/
def transcriptHeader (t : CallTranscript) : List Char :=
  "## Transcript (Call ".toList ++ t.callId ++ ")\n".toList

/-- The status line
`*Showing characters ${offset+1}-${Math.min(offset+maxLength, totalLength)} of ${totalLength} total*\n`. -/
def statusLine (offset maxLength totalLength : Nat) : List Char :=
  "*Showing characters ".toList ++ (toString (offset + 1)).toList ++ "-".toList
    ++ (toString (reportedUpperBound offset maxLength totalLength)).toList
    ++ " of ".toList ++ (toString totalLength).toList ++ " total*\n".toList

/-- `FormatTranscriptOptions` from formatters.ts. -/
structure FormatTranscriptOptions where
  maxLength : Option Nat := none
  offset : Option Nat := none

/-- `formatCallTranscript` from formatters.ts: reconstruct the full text,
window it by `offset`/`maxLength`, and annotate with a status line and
truncation markers exactly when a truncation flag is set. -/
def formatCallTranscript (t : CallTranscript) (parties : Option (List Party))
    (options : FormatTranscriptOptions) : List Char :=
  let maxLength := options.maxLength.getD 10000
  let offset := options.offset.getD 0
  let fullText := transcriptFullText t parties
  let totalLength := fullText.length
  if t.transcript.length = 0 then
    joinWith ['\n'] [transcriptHeader t, "*No transcript available*".toList]
  else
    joinWith ['\n']
      ([transcriptHeader t]
        ++ (if 0 < offset ∨ offset + maxLength < totalLength then
              [statusLine offset maxLength totalLength]
            else [])
        ++ (if 0 < offset then ["*[...truncated start...]*\n".toList] else [])
        ++ [windowSlice fullText offset maxLength]
        ++ (if offset + maxLength < totalLength then
              ["\n*[...truncated...]*".toList,
               "\n*To see more, use offset: ".toList
                 ++ (toString (offset + maxLength)).toList ++ "*".toList]
            else []))

/-- `recordsSchema`: the pagination block of list responses. -/
structure Records where
  cursor : Option (List Char) := none
  totalRecords : Nat
  currentPageSize : Nat
  currentPageNumber : Nat

/-- `callSchema`: the minimal call shape of GET /v2/calls. -/
structure Call where
  id : List Char
  title : Option (List Char) := none
  scheduled : Option (List Char) := none
  started : Option (List Char) := none
  duration : Option Nat := none
  primaryUserId : Option (List Char) := none
  direction : Option (List Char) := none
  scope : Option (List Char) := none
  media : Option (List Char) := none
  language : Option (List Char) := none
  workspaceId : Option (List Char) := none
  url : Option (List Char) := none

/-- `callsResponseSchema`. -/
structure CallsResponse where
  requestId : List Char
  records : Records
  calls : List Call

/-- The title cell: `call.title?.slice(0, 50) ?? '-'`. -/
def titleCell (title : Option (List Char)) : List Char :=
  match title with
  | some s => s.take 50
  | none => "-".toList

/-- The date cell: `call.started ? new Date(call.started).toLocaleDateString() : '-'`
(truthiness: an empty string also falls back to the placeholder). -/
def dateCell (renderDate : List Char → List Char) (started : Option (List Char)) :
    List Char :=
  match started with
  | some s => if s ≠ [] then renderDate s else "-".toList
  | none => "-".toList

/-- The duration cell:
`call.duration ? `${Math.round(call.duration / 60)}m` : '-'`.
The truthiness test sends both a missing duration and a duration of `0`
to the `'-'` placeholder. -/
def durationCell (duration : Option Nat) : List Char :=
  match duration with
  | some d => if d ≠ 0 then (toString ((d + 30) / 60)).toList ++ "m".toList
              else "-".toList
  | none => "-".toList

/-- One table row of `formatCallsResponse`. -/
def callRow (renderDate : List Char → List Char) (call : Call) : List Char :=
  "| ".toList ++ call.id ++ " | ".toList ++ escapeMarkdown (titleCell call.title)
    ++ " | ".toList ++ dateCell renderDate call.started ++ " | ".toList
    ++ durationCell call.duration ++ " | ".toList
    ++ call.scope.getD ("-".toList) ++ " |".toList

/-- The trailing cursor note, emitted when `response.records.cursor` is truthy. -/
def cursorNote (cursor : Option (List Char)) : List (List Char) :=
  match cursor with
  | some c =>
      if c ≠ [] then
        ["\n*More results available. Cursor:* `".toList ++ c ++ "`".toList]
      else []
  | none => []

/-- `formatCallsResponse` from formatters.ts. -/
def formatCallsResponse (renderDate : List Char → List Char)
    (response : CallsResponse) : List Char :=
  let header := "**Calls** (".toList
    ++ (toString response.records.totalRecords).toList ++ " total)\n".toList
  if response.calls.length = 0 then
    joinWith ['\n'] [header, "No calls found.".toList]
  else
    joinWith ['\n']
      ([header, "| ID | Title | Date | Duration | Scope |".toList,
        "|---|---|---|---|---|".toList]
        ++ response.calls.map (callRow renderDate)
        ++ cursorNote response.records.cursor)

/-- `callMetadataSchema`. -/
structure CallMetadata where
  id : List Char
  url : Option (List Char) := none
  title : Option (List Char) := none
  scheduled : Option (List Char) := none
  started : Option (List Char) := none
  duration : Option Nat := none
  primaryUserId : Option (List Char) := none
  direction : Option (List Char) := none
  system : Option (List Char) := none
  scope : Option (List Char) := none
  media : Option (List Char) := none
  language : Option (List Char) := none
  workspaceId : Option (List Char) := none
  sdrDisposition : Option (List Char) := none
  clientUniqueId : Option (List Char) := none
  customData : Option (List Char) := none
  purpose : Option (List Char) := none
  meetingUrl : Option (List Char) := none
  isPrivate : Option Bool := none
  calendarEventId : Option (List Char) := none

/-- `keyPointSchema`. -/
structure KeyPoint where
  text : List Char

/-- `topicSchema`. -/
structure Topic where
  name : List Char
  duration : Nat

/-- `actionItemSchema`. -/
structure ActionItem where
  snippetStartTime : Option Nat := none
  snippetEndTime : Option Nat := none
  speakerIds : Option (List (List Char)) := none
  snippet : Option (List Char) := none

/-- `outlineItemSchema`. -/
structure OutlineItem where
  text : List Char
  startTime : Option Nat := none

/-- `outlineSectionSchema`.  The source's `section` field is named
`sectionTitle` here (`section` is a Lean keyword). -/
structure OutlineSection where
  sectionTitle : List Char
  startTime : Option Nat := none
  duration : Option Nat := none
  items : Option (List OutlineItem) := none

/-- The `pointsOfInterest` object of `callContentSchema`. -/
structure PointsOfInterest where
  actionItems : Option (List ActionItem) := none

/-- `trackerOccurrenceSchema`. -/
structure TrackerOccurrence where
  startTime : Nat
  speakerId : Option (List Char) := none

/-- `trackerSchema` (call-content trackers; not read by `formatCallSummary`). -/
structure Tracker where
  id : List Char
  name : List Char
  count : Nat
  type : Option (List Char) := none
  occurrences : Option (List TrackerOccurrence) := none

/-- `callOutcomeSchema`. -/
structure CallOutcome where
  id : Option (List Char) := none
  category : Option (List Char) := none
  name : Option (List Char) := none

/-- `callContentSchema`. -/
structure CallContent where
  trackers : Option (List Tracker) := none
  topics : Option (List Topic) := none
  pointsOfInterest : Option PointsOfInterest := none
  brief : Option (List Char) := none
  outline : Option (List OutlineSection) := none
  callOutcome : Option CallOutcome := none
  keyPoints : Option (List KeyPoint) := none

/-- `speakerSchema` (interaction stats; not read by the formatters in scope). -/
structure SpeakerStats where
  id : List Char
  visibility : Option Nat := none
  talkTime : Option Nat := none

/-- `interactionSchema` (not read by the formatters in scope). -/
structure Interaction where
  speakers : Option (List SpeakerStats) := none
  interactivity : Option Nat := none

/-- `mediaSchema` (not read by the formatters in scope). -/
structure MediaUrls where
  audioUrl : Option (List Char) := none
  videoUrl : Option (List Char) := none

/-- `callDetailsSchema`: the detailed call shape of POST /v2/calls/extensive.
The `context` and `collaboration` blocks are opaque to every formatter in
scope and are left out of the model. -/
structure CallDetails where
  metaData : CallMetadata
  parties : Option (List Party) := none
  content : Option CallContent := none
  interaction : Option Interaction := none
  media : Option MediaUrls := none

/-- `callDetailsResponseSchema`. -/
structure CallDetailsResponse where
  requestId : List Char
  records : Records
  calls : List CallDetails

/-- One table row of `formatCallDetailsResponse` (same cells as `callRow`,
read from `call.metaData`). -/
def metaRow (renderDate : List Char → List Char) (call : CallDetails) : List Char :=
  "| ".toList ++ call.metaData.id ++ " | ".toList
    ++ escapeMarkdown (titleCell call.metaData.title)
    ++ " | ".toList ++ dateCell renderDate call.metaData.started ++ " | ".toList
    ++ durationCell call.metaData.duration ++ " | ".toList
    ++ call.metaData.scope.getD ("-".toList) ++ " |".toList

/-- `formatCallDetailsResponse` from formatters.ts. -/
def formatCallDetailsResponse (renderDate : List Char → List Char)
    (response : CallDetailsResponse) : List Char :=
  let header := "**Calls** (".toList
    ++ (toString response.records.totalRecords).toList ++ " total)\n".toList
  if response.calls.length = 0 then
    joinWith ['\n'] [header, "No calls found.".toList]
  else
    joinWith ['\n']
      ([header, "| ID | Title | Date | Duration | Scope |".toList,
        "|---|---|---|---|---|".toList]
        ++ response.calls.map (metaRow renderDate)
        ++ cursorNote response.records.cursor)

/-- `formatCallSummary` from formatters.ts.  `renderDateTime` abstracts
`new Date(meta.started).toLocaleString()`.  The source's defensive
`t.duration ?? 0` and `section.section ?? 'Section'` are identities here
because the schema makes both fields required. -/
def formatCallSummary (renderDateTime : List Char → List Char)
    (call : CallDetails) : List Char :=
  let meta := call.metaData
  let headerLine := "## ".toList
    ++ escapeMarkdown (meta.title.getD ("Untitled Call".toList)) ++ "\n".toList
  let metaParts : List (List Char) :=
    ["**ID:** ".toList ++ meta.id]
      ++ (match meta.started with
          | some s => if s ≠ [] then ["**Date:** ".toList ++ renderDateTime s] else []
          | none => [])
      ++ (match meta.duration with
          | some d =>
              if d ≠ 0 then
                ["**Duration:** ".toList ++ (toString ((d + 30) / 60)).toList
                  ++ "m".toList]
              else []
          | none => [])
      ++ (match meta.scope with
          | some s => if s ≠ [] then ["**Scope:** ".toList ++ s] else []
          | none => [])
  let participantPart : List (List Char) :=
    match call.parties with
    | some ps =>
        if 0 < ps.length then
          ["\n### Participants\n".toList,
           joinWith ", ".toList (ps.map fun p =>
             let name := p.name.getD (p.emailAddress.getD ("Unknown".toList))
             let role := match p.affiliation with
               | some a => if a ≠ [] then " (".toList ++ a ++ ")".toList else []
               | none => []
             escapeMarkdown name ++ role)]
        else []
    | none => []
  let briefPart : List (List Char) :=
    match call.content with
    | some content =>
        match content.brief with
        | some b =>
            if b ≠ [] then ["\n### Summary\n".toList, escapeMarkdown b] else []
        | none => []
    | none => []
  let keyPointsPart : List (List Char) :=
    match call.content with
    | some content =>
        match content.keyPoints with
        | some kps =>
            if 0 < kps.length then
              ["\n### Key Points\n".toList]
                ++ kps.map fun kp => "- ".toList ++ escapeMarkdown kp.text
            else []
        | none => []
    | none => []
  let actionItemsPart : List (List Char) :=
    match call.content with
    | some content =>
        match content.pointsOfInterest with
        | some poi =>
            match poi.actionItems with
            | some items =>
                if 0 < items.length then
                  ["\n### Action Items\n".toList]
                    ++ items.filterMap fun item =>
                        match item.snippet with
                        | some s =>
                            if s ≠ [] then some ("- ".toList ++ escapeMarkdown s)
                            else none
                        | none => none
                else []
            | none => []
        | none => []
    | none => []
  let topicsPart : List (List Char) :=
    match call.content with
    | some content =>
        match content.topics with
        | some ts =>
            if 0 < ts.length then
              ["\n### Topics\n".toList,
               joinWith ", ".toList (ts.map fun tp =>
                 escapeMarkdown tp.name ++ " (".toList
                   ++ (toString ((tp.duration + 30) / 60)).toList ++ "m)".toList)]
            else []
        | none => []
    | none => []
  let outlinePart : List (List Char) :=
    match call.content with
    | some content =>
        match content.outline with
        | some sections =>
            if 0 < sections.length then
              ["\n### Outline\n".toList]
                ++ sections.flatMap fun sec =>
                    let dur := match sec.duration with
                      | some d =>
                          if d ≠ 0 then
                            " (".toList ++ (toString ((d + 30) / 60)).toList
                              ++ "m)".toList
                          else []
                      | none => []
                    ["**".toList ++ escapeMarkdown sec.sectionTitle ++ "**".toList ++ dur]
                      ++ (match sec.items with
                          | some items =>
                              if 0 < items.length then
                                items.filterMap fun item =>
                                  if item.text ≠ [] then
                                    some ("- ".toList ++ escapeMarkdown item.text)
                                  else none
                              else []
                          | none => [])
                      ++ [[]]
            else []
        | none => []
    | none => []
  joinWith ['\n']
    ([headerLine, joinWith " | ".toList metaParts]
      ++ (match meta.url with
          | some u => if u ≠ [] then ["**URL:** ".toList ++ u] else []
          | none => [])
      ++ participantPart ++ briefPart ++ keyPointsPart ++ actionItemsPart
      ++ topicsPart ++ outlinePart)

/-- `transcriptsResponseSchema`. -/
structure TranscriptsResponse where
  requestId : List Char
  records : Records
  callTranscripts : List CallTranscript

/-- The text-or-error envelope a tool handler returns to the MCP shell. -/
structure ToolResult where
  text : List Char
  isError : Bool
  deriving DecidableEq

/-- The `get_call_summary` branch of the CallToolRequestSchema handler after
its two effects (validation and the detail fetch) have produced `callId` and
`result`: `result.calls[0]` is checked and an empty result set throws
`Call not found: ${callId}`. -/
def getCallSummaryCore (callId : List Char) (result : CallDetailsResponse)
    (renderDateTime : List Char → List Char) : Except (List Char) (List Char) :=
  match result.calls with
  | [] => Except.error ("Call not found: ".toList ++ callId)
  | call :: _ => Except.ok (formatCallSummary renderDateTime call)

/-- The `get_call_transcript` branch of the handler after its fetches:
`transcriptResult.callTranscripts[0]` missing throws
`Transcript not found: ${callId}`; otherwise the transcript is formatted with
`details?.parties` and the validated `maxLength`/`offset` (whose schema bounds
make them non-negative). -/
def getCallTranscriptCore (callId : List Char)
    (transcriptResult : TranscriptsResponse) (detailsResult : CallDetailsResponse)
    (maxLength offset : Nat) : Except (List Char) (List Char) :=
  match transcriptResult.callTranscripts with
  | [] => Except.error ("Transcript not found: ".toList ++ callId)
  | transcript :: _ =>
      Except.ok (formatCallTranscript transcript
        (detailsResult.calls.head?.bind CallDetails.parties)
        { maxLength := some maxLength, offset := some offset })

/-- The catch-all wrapper of the tool dispatcher: a thrown message becomes a
text response `Error: ${message}` with the error flag set. -/
def runTool (result : Except (List Char) (List Char)) : ToolResult :=
  match result with
  | Except.ok text => { text := text, isError := false }
  | Except.error message => { text := "Error: ".toList ++ message, isError := true }

/-- `gongIdSchema`: the regex `^\d{1,20}$`. -/
def isGongId (s : List Char) : Bool :=
  decide (1 ≤ s.length) && decide (s.length ≤ 20) && s.all Char.isDigit

/-- The raw argument bag of a `get_call_transcript` call, before zod parsing.
Numeric arguments are modelled as integers (the schema's `.int()` refinement
rejects non-integral numbers, which are outside this model). -/
structure GetCallTranscriptArgs where
  callId : List Char
  maxLength : Option Int := none
  offset : Option Int := none

/-- The validated output of `getCallTranscriptRequestSchema.parse`. -/
structure GetCallTranscriptRequest where
  callId : List Char
  maxLength : Int
  offset : Int
  deriving DecidableEq

/-- `getCallTranscriptRequestSchema` from schemas.ts: `callId` must match the
gong-id regex; `maxLength` defaults to 10000 and must lie in `[1000, 100000]`;
`offset` defaults to 0 and must be non-negative.  `none` models a rejected
request. -/
def parseGetCallTranscriptRequest (args : GetCallTranscriptArgs) :
    Option GetCallTranscriptRequest :=
  if isGongId args.callId then
    let maxLength := args.maxLength.getD 10000
    let offset := args.offset.getD 0
    if 1000 ≤ maxLength ∧ maxLength ≤ 100000 ∧ 0 ≤ offset then
      some { callId := args.callId, maxLength := maxLength, offset := offset }
    else none
  else none

/-- The component values of a string matching `iso8601DateTimeSchema`
(`YYYY-MM-DDTHH:MM:SS(.fff)?(Z|±HH:MM)`), as ECMAScript `Date` parsing reads
them: calendar fields, a millisecond fraction, and a timezone offset in
minutes (0 for `Z`, negative for `-HH:MM`). -/
structure IsoDateTime where
  year : Nat
  month : Nat
  day : Nat
  hour : Nat
  minute : Nat
  second : Nat
  millis : Nat := 0
  tzOffsetMinutes : Int := 0

/-- Proleptic-Gregorian leap year. -/
def isLeapYear (y : Nat) : Bool :=
  (y % 4 == 0 && y % 100 != 0) || y % 400 == 0

/-- Days in a month of the proleptic Gregorian calendar. -/
def daysInMonth (y m : Nat) : Nat :=
  if m = 2 then (if isLeapYear y then 29 else 28)
  else if m = 4 ∨ m = 6 ∨ m = 9 ∨ m = 11 then 30
  else 31

/-- The field ranges under which an ISO datetime string denotes an instant;
ECMAScript yields an Invalid Date (`NaN`, so a rejected range either way)
outside them. -/
def IsoDateTime.validFields (d : IsoDateTime) : Prop :=
  d.year ≤ 9999 ∧ 1 ≤ d.month ∧ d.month ≤ 12 ∧ 1 ≤ d.day
    ∧ d.day ≤ daysInMonth d.year d.month ∧ d.hour ≤ 23 ∧ d.minute ≤ 59
    ∧ d.second ≤ 59 ∧ d.millis ≤ 999

instance (d : IsoDateTime) : Decidable d.validFields := by
  unfold IsoDateTime.validFields; infer_instance

/-- Day count of a proleptic-Gregorian civil date measured from 0400-03-01
(the standard era/year-of-era day-count algorithm, shifted by one 400-year
era so the arithmetic stays in `Nat` for years 0-9999).
`daysFromCivil 1970 1 1 = 865565`. -/
def daysFromCivil (y m d : Nat) : Nat :=
  let yShifted := if m ≤ 2 then y + 399 else y + 400
  let era := yShifted / 400
  let yoe := yShifted % 400
  let mp := (m + 9) % 12
  let doy := (153 * mp + 2) / 5 + d - 1
  let doe := yoe * 365 + yoe / 4 - yoe / 100 + doy
  era * 146097 + doe

/-- The instant denoted by an ISO datetime, as milliseconds since the Unix
epoch — the value ECMAScript's `new Date(string)` holds for strings of this
grammar: `Date.UTC` of the fields minus the timezone offset. -/
def toEpochMillis (d : IsoDateTime) : Int :=
  ((daysFromCivil d.year d.month d.day : Int) - 865565) * 86400000
    + ((d.hour * 3600000 + d.minute * 60000 + d.second * 1000 + d.millis : Nat) : Int)
    - d.tzOffsetMinutes * 60000

/-- The fields of `listCallsRequestSchema` (datetimes already split into their
regex-validated components). -/
structure ListCallsRequest where
  fromDateTime : Option IsoDateTime := none
  toDateTime : Option IsoDateTime := none
  workspaceId : Option (List Char) := none
  cursor : Option (List Char) := none

/-- The fields of `searchCallsRequestSchema`. -/
structure SearchCallsRequest where
  fromDateTime : Option IsoDateTime := none
  toDateTime : Option IsoDateTime := none
  workspaceId : Option (List Char) := none
  primaryUserIds : Option (List (List Char)) := none
  callIds : Option (List (List Char)) := none
  cursor : Option (List Char) := none

/-- The shared `.refine` of both calls schemas:
`if (data.fromDateTime && data.toDateTime) return new Date(from) < new Date(to)`. -/
def dateRangeOk (fromDateTime toDateTime : Option IsoDateTime) : Bool :=
  match fromDateTime, toDateTime with
  | some f, some t => decide (toEpochMillis f < toEpochMillis t)
  | _, _ => true

/-- `listCallsRequestSchema.parse` restricted to its cross-field refinement
(the per-field regexes are upstream of this step). -/
def validateListCallsRequest (r : ListCallsRequest) :
    Except (List Char) ListCallsRequest :=
  if dateRangeOk r.fromDateTime r.toDateTime then Except.ok r
  else Except.error ("fromDateTime must be before toDateTime".toList)

/-- `searchCallsRequestSchema.parse` restricted to its cross-field refinement. -/
def validateSearchCallsRequest (r : SearchCallsRequest) :
    Except (List Char) SearchCallsRequest :=
  if dateRangeOk r.fromDateTime r.toDateTime then Except.ok r
  else Except.error ("fromDateTime must be before toDateTime".toList)

/-- `if (x)` applied to an optional string property: kept only when present
and non-empty. -/
def setIfTruthy (v : Option (List Char)) : Option (List Char) :=
  match v with
  | some s => if s ≠ [] then some s else none
  | none => none

/-- The `filter` sub-object `GongClient.searchCalls` builds (`none` models a
property never assigned on the object). -/
structure SearchCallsFilter where
  fromDateTime : Option (List Char) := none
  toDateTime : Option (List Char) := none
  workspaceId : Option (List Char) := none
  primaryUserIds : Option (List (List Char)) := none
  callIds : Option (List (List Char)) := none
  deriving DecidableEq

/-- The POST body `GongClient.searchCalls` sends to /v2/calls/extensive:
a `filter` sub-object plus an optional top-level `cursor`. -/
structure SearchCallsBody where
  filter : SearchCallsFilter
  cursor : Option (List Char) := none
  deriving DecidableEq

/-- The options argument of `GongClient.searchCalls` (the validated request). -/
structure SearchCallsOptions where
  fromDateTime : Option (List Char) := none
  toDateTime : Option (List Char) := none
  workspaceId : Option (List Char) := none
  primaryUserIds : Option (List (List Char)) := none
  callIds : Option (List (List Char)) := none
  cursor : Option (List Char) := none

/-- The body construction of `GongClient.searchCalls`: each filter field is
assigned only when truthy, array fields additionally only when non-empty, and
`cursor` is assigned on the body itself, outside `filter`. -/
def buildSearchCallsBody (options : SearchCallsOptions) : SearchCallsBody :=
  { filter :=
      { fromDateTime := setIfTruthy options.fromDateTime
        toDateTime := setIfTruthy options.toDateTime
        workspaceId := setIfTruthy options.workspaceId
        primaryUserIds :=
          match options.primaryUserIds with
          | some l => if 0 < l.length then some l else none
          | none => none
        callIds :=
          match options.callIds with
          | some l => if 0 < l.length then some l else none
          | none => none }
    cursor := setIfTruthy options.cursor }

/-- The `filter` sub-object `GongClient.searchUsers` builds. -/
structure SearchUsersFilter where
  userIds : Option (List (List Char)) := none
  createdFromDateTime : Option (List Char) := none
  createdToDateTime : Option (List Char) := none
  deriving DecidableEq

/-- The POST body `GongClient.searchUsers` sends to /v2/users/extensive. -/
structure SearchUsersBody where
  filter : SearchUsersFilter
  cursor : Option (List Char) := none
  deriving DecidableEq

/-- The options argument of `GongClient.searchUsers` (`searchUsersRequestSchema`
output). -/
structure SearchUsersOptions where
  userIds : Option (List (List Char)) := none
  createdFromDateTime : Option (List Char) := none
  createdToDateTime : Option (List Char) := none
  cursor : Option (List Char) := none

/-- The body construction of `GongClient.searchUsers`. -/
def buildSearchUsersBody (options : SearchUsersOptions) : SearchUsersBody :=
  { filter :=
      { userIds :=
          match options.userIds with
          | some l => if 0 < l.length then some l else none
          | none => none
        createdFromDateTime := setIfTruthy options.createdFromDateTime
        createdToDateTime := setIfTruthy options.createdToDateTime }
    cursor := setIfTruthy options.cursor }

/-! Concrete inputs used by witnesses and counterexamples. -/

/-- A two-monologue transcript used as a concrete witness input. -/
def sampleTranscript : CallTranscript :=
  { callId := "123".toList
  , transcript :=
      [ { speakerId := "1".toList
        , sentences := [⟨0, 1, "hello world.".toList⟩, ⟨2, 3, "more text here.".toList⟩] }
      , { speakerId := "2".toList
        , sentences := [⟨4, 5, "thanks a lot.".toList⟩] } ] }

/-- A party whose `speakerId` is the empty string (schema-valid input). -/
def emptySidParty : Party := { speakerId := some [], name := some ("Bob".toList) }

/-- Two parties sharing the empty-string `speakerId`. -/
def dupEmptyA : Party := { speakerId := some [], name := some ("A".toList) }

/-- Second party sharing the empty-string `speakerId`. -/
def dupEmptyB : Party := { speakerId := some [], name := some ("B".toList) }

/-- A party resolvable only through its email address. -/
def emailOnlyParty : Party :=
  { speakerId := some ("s1".toList), emailAddress := some ("a@b.c".toList) }

/-- First of two parties sharing `speakerId` "s". -/
def dupFirst : Party := { speakerId := some ("s".toList), name := some ("First".toList) }

/-- Second of two parties sharing `speakerId` "s". -/
def dupLast : Party := { speakerId := some ("s".toList), name := some ("Last".toList) }

/-- A party with no `speakerId` at all. -/
def noSidParty : Party := { name := some ("Ghost".toList) }

/-- A detail response whose fetch succeeded but matched no call. -/
def emptyDetailsResponse : CallDetailsResponse :=
  { requestId := "r1".toList
  , records := { totalRecords := 0, currentPageSize := 0, currentPageNumber := 1 }
  , calls := [] }

/-- A transcript response whose fetch succeeded but matched no call. -/
def emptyTranscriptsResponse : TranscriptsResponse :=
  { requestId := "r2".toList
  , records := { totalRecords := 0, currentPageSize := 0, currentPageNumber := 1 }
  , callTranscripts := [] }

/-- A call whose duration field is present and zero. -/
def durationZeroCall : Call := { id := "123".toList, duration := some 0 }

/-- A one-call response whose single call has duration 0. -/
def durationZeroResponse : CallsResponse :=
  { requestId := "r3".toList
  , records := { totalRecords := 1, currentPageSize := 1, currentPageNumber := 1 }
  , calls := [durationZeroCall] }

/-- A call with a half-hour duration, for the duration-column witness. -/
def duration1800Call : Call :=
  { id := "7".toList, title := some ("T".toList), duration := some 1800 }

/-- A detailed call with a duration, for the duration-column witness. -/
def duration90Details : CallDetails :=
  { metaData := { id := "8".toList, duration := some 90 } }

/-- `2024-01-01T02:00:00+03:00`: an instant before `acceptTo` although its
clock-time components are later. -/
def acceptFrom : IsoDateTime :=
  { year := 2024, month := 1, day := 1, hour := 2, minute := 0, second := 0
  , tzOffsetMinutes := 180 }

/-- `2024-01-01T00:30:00Z`. -/
def acceptTo : IsoDateTime :=
  { year := 2024, month := 1, day := 1, hour := 0, minute := 30, second := 0 }

/-- `2024-01-01T01:00:00+01:00`: the same instant as `rejectTo`. -/
def rejectFrom : IsoDateTime :=
  { year := 2024, month := 1, day := 1, hour := 1, minute := 0, second := 0
  , tzOffsetMinutes := 60 }

/-- `2024-01-01T00:00:00Z`. -/
def rejectTo : IsoDateTime :=
  { year := 2024, month := 1, day := 1, hour := 0, minute := 0, second := 0 }

/-- Concrete search-calls options carrying empty array filters and a cursor. -/
def emptyArraysCallsOptions : SearchCallsOptions :=
  { primaryUserIds := some [], callIds := some [], cursor := some ("cur".toList) }

/-- Concrete search-users options carrying an empty array filter and a cursor. -/
def emptyArraysUsersOptions : SearchUsersOptions :=
  { userIds := some [], cursor := some ("cur".toList) }

/-! Theorems. -/

theorem joinWith_cons (sep x : List Char) {xs : List (List Char)} (h : xs ≠ []) :
    joinWith sep (x :: xs) = x ++ sep ++ joinWith sep xs := by
  cases xs with
  | nil => exact absurd rfl h
  | cons y ys => rfl

theorem foldl_speakerInsert_skip (sid : List Char) :
    ∀ (rs : List Party) (m : List Char → Option (List Char)),
      (∀ r ∈ rs, r.speakerId ≠ some sid) →
      rs.foldl speakerInsert m sid = m sid := by
  intro rs
  induction rs with
  | nil => intro m _; rfl
  | cons r rs ih =>
    intro m h
    have hr : r.speakerId ≠ some sid := h r (List.mem_cons_self r rs)
    have hrest : ∀ x ∈ rs, x.speakerId ≠ some sid :=
      fun x hx => h x (List.mem_cons_of_mem r hx)
    rw [List.foldl_cons, ih (speakerInsert m r) hrest]
    cases hs : r.speakerId with
    | none => simp [speakerInsert, hs]
    | some s =>
      have hne : ¬ sid = s := fun he => hr (by rw [hs, he])
      by_cases hnil : s = []
      · simp [speakerInsert, hs, hnil]
      · simp [speakerInsert, hs, hnil, hne]

theorem foldl_speakerInsert_found (sid : List Char) (q : Party) (rs : List Party)
    (m : List Char → Option (List Char)) (hq : q.speakerId = some sid)
    (hsid : sid ≠ []) (hrs : ∀ r ∈ rs, r.speakerId ≠ some sid) :
    (q :: rs).foldl speakerInsert m sid = some (partyLabel q sid) := by
  rw [List.foldl_cons, foldl_speakerInsert_skip sid rs (speakerInsert m q) hrs]
  simp [speakerInsert, hq, hsid]

/-- C6 counterexample: a party whose `speakerId` is the empty string is skipped
by the truthiness test `if (party.speakerId)`, so a monologue with the (equal)
empty-string `speakerId` gets the synthesized label, not the matching party's
`name`. -/
theorem speakerName_resolution_counterexample :
    emptySidParty.speakerId = some []
    ∧ emptySidParty.name = some ("Bob".toList)
    ∧ resolveSpeakerName (buildSpeakerNames (some [emptySidParty])) []
        = "Speaker ".toList
    ∧ resolveSpeakerName (buildSpeakerNames (some [emptySidParty])) []
        ≠ "Bob".toList := by
  refine ⟨rfl, rfl, ?_, ?_⟩ <;> decide

/-- C6 (amended): with no party list every monologue gets the synthesized
`Speaker <speakerId>` label; with a party list, a monologue whose (non-empty)
`speakerId` matches no party also gets the synthesized label, and one whose
`speakerId` is carried by a party `q` after which no further party carries it
gets `q`'s `name`, else `q`'s `emailAddress`, else the synthesized label.
Parties whose `speakerId` is empty never match (see the counterexample). -/
theorem speakerName_resolution (ps ps₁ ps₂ : List Party) (q : Party)
    (sid : List Char) :
    resolveSpeakerName (buildSpeakerNames none) sid = "Speaker ".toList ++ sid
    ∧ ((∀ r ∈ ps, r.speakerId ≠ some sid) →
        resolveSpeakerName (buildSpeakerNames (some ps)) sid
          = "Speaker ".toList ++ sid)
    ∧ (q.speakerId = some sid → sid ≠ [] → (∀ r ∈ ps₂, r.speakerId ≠ some sid) →
        resolveSpeakerName (buildSpeakerNames (some (ps₁ ++ q :: ps₂))) sid
          = match q.name, q.emailAddress with
            | some n, _ => n
            | none, some e => e
            | none, none => "Speaker ".toList ++ sid) := by
  refine ⟨rfl, fun h => ?_, fun hq hsid h2 => ?_⟩
  · rw [buildSpeakerNames, resolveSpeakerName,
      foldl_speakerInsert_skip sid ps _ h]
    rfl
  · rw [buildSpeakerNames, resolveSpeakerName, List.foldl_append,
      foldl_speakerInsert_found sid q ps₂ _ hq hsid h2]
    cases hn : q.name <;> cases he : q.emailAddress <;> simp [partyLabel, hn, he]

/-- C6 witness: the amended theorem applied at concrete inputs — an
email-only party resolves to its email, and with no party list the synthesized
label is used. -/
theorem speakerName_resolution_witness :
    resolveSpeakerName (buildSpeakerNames none) ("s1".toList)
      = "Speaker ".toList ++ "s1".toList
    ∧ resolveSpeakerName (buildSpeakerNames (some ([] ++ emailOnlyParty :: [])))
        ("s1".toList) = "a@b.c".toList :=
  ⟨(speakerName_resolution [] [] [] emailOnlyParty ("s1".toList)).1,
   (speakerName_resolution [] [] [] emailOnlyParty ("s1".toList)).2.2 rfl
     (by decide) (by intro r hr; cases hr)⟩

/-- C10 counterexample: two parties carrying the same (empty-string)
`speakerId` are both skipped by the truthiness test, so the label of the last
one is not used — the lookup misses and the synthesized label appears. -/
theorem speakerMap_lastWins_counterexample :
    dupEmptyA.speakerId = dupEmptyB.speakerId
    ∧ partyLabel dupEmptyB [] = "B".toList
    ∧ resolveSpeakerName (buildSpeakerNames (some [dupEmptyA, dupEmptyB])) []
        = "Speaker ".toList
    ∧ resolveSpeakerName (buildSpeakerNames (some [dupEmptyA, dupEmptyB])) []
        ≠ partyLabel dupEmptyB [] := by
  refine ⟨rfl, rfl, ?_, ?_⟩ <;> decide

/-- C10 (amended): a party whose `speakerId` is `null`/absent — or the empty
string — contributes no entry to the speaker-name map, and when two or more
parties carry the same non-empty `speakerId` the label derived from the last
such party is the one every monologue with that `speakerId` resolves to. -/
theorem speakerMap_lastWins (ps₁ ps₂ ps₃ : List Party) (p p' q : Party)
    (sid : List Char) (hp : p.speakerId = none) (hp' : p'.speakerId = some [])
    (hq : q.speakerId = some sid) (hsid : sid ≠ [])
    (hlast : ∀ r ∈ ps₃, r.speakerId ≠ some sid) :
    buildSpeakerNames (some (ps₁ ++ p :: ps₂)) = buildSpeakerNames (some (ps₁ ++ ps₂))
    ∧ buildSpeakerNames (some (ps₁ ++ p' :: ps₂)) = buildSpeakerNames (some (ps₁ ++ ps₂))
    ∧ buildSpeakerNames (some (ps₁ ++ q :: ps₃)) sid = some (partyLabel q sid)
    ∧ resolveSpeakerName (buildSpeakerNames (some (ps₁ ++ q :: ps₃))) sid
        = partyLabel q sid := by
  refine ⟨?_, ?_, ?_, ?_⟩
  · rw [buildSpeakerNames, buildSpeakerNames, List.foldl_append,
      List.foldl_append, List.foldl_cons]
    have : speakerInsert (ps₁.foldl speakerInsert fun _ => none) p
        = ps₁.foldl speakerInsert fun _ => none := by
      simp [speakerInsert, hp]
    rw [this]
  · rw [buildSpeakerNames, buildSpeakerNames, List.foldl_append,
      List.foldl_append, List.foldl_cons]
    have : speakerInsert (ps₁.foldl speakerInsert fun _ => none) p'
        = ps₁.foldl speakerInsert fun _ => none := by
      simp [speakerInsert, hp']
    rw [this]
  · rw [buildSpeakerNames, List.foldl_append,
      foldl_speakerInsert_found sid q ps₃ _ hq hsid hlast]
  · rw [resolveSpeakerName, buildSpeakerNames, List.foldl_append,
      foldl_speakerInsert_found sid q ps₃ _ hq hsid hlast]
    rfl

/-- C10 witness: the amended theorem applied at concrete inputs — with two
parties sharing `speakerId` "s" the last one's name wins, and a party without
a `speakerId` changes nothing. -/
theorem speakerMap_lastWins_witness :
    buildSpeakerNames (some ([dupFirst] ++ noSidParty :: []))
      = buildSpeakerNames (some ([dupFirst] ++ []))
    ∧ buildSpeakerNames (some ([dupFirst] ++ dupEmptyA :: []))
      = buildSpeakerNames (some ([dupFirst] ++ []))
    ∧ buildSpeakerNames (some ([dupFirst] ++ dupLast :: [])) ("s".toList)
      = some (partyLabel dupLast ("s".toList))
    ∧ resolveSpeakerName (buildSpeakerNames (some ([dupFirst] ++ dupLast :: [])))
        ("s".toList) = partyLabel dupLast ("s".toList) :=
  speakerMap_lastWins [dupFirst] [] [] noSidParty dupEmptyA dupLast ("s".toList)
    rfl rfl rfl (by decide) (by intro r hr; cases hr)

theorem transcriptFullText_ne_nil_of_lt {t : CallTranscript}
    {parties : Option (List Party)} {n : Nat}
    (h : n < (transcriptFullText t parties).length) : t.transcript ≠ [] := by
  intro h0
  rw [transcriptFullText, h0] at h
  simp [joinWith] at h

theorem formatCallTranscript_eq (t : CallTranscript) (parties : Option (List Party))
    (m o : Nat) (ht : t.transcript ≠ []) :
    formatCallTranscript t parties { maxLength := some m, offset := some o } =
      joinWith ['\n']
        ([transcriptHeader t]
          ++ (if 0 < o ∨ o + m < (transcriptFullText t parties).length then
                [statusLine o m (transcriptFullText t parties).length]
              else [])
          ++ (if 0 < o then ["*[...truncated start...]*\n".toList] else [])
          ++ [windowSlice (transcriptFullText t parties) o m]
          ++ (if o + m < (transcriptFullText t parties).length then
                ["\n*[...truncated...]*".toList,
                 "\n*To see more, use offset: ".toList
                   ++ (toString (o + m)).toList ++ "*".toList]
              else [])) := by
  have hlen : ¬ t.transcript.length = 0 := by
    simpa [List.length_eq_zero] using ht
  simp only [formatCallTranscript, Option.getD_some]
  rw [if_neg hlen]

theorem statusLine_infix_joinWith (sep hd x s : List Char) (T E : List (List Char)) :
    x <:+: joinWith sep ([hd] ++ [x] ++ T ++ [s] ++ E) := by
  have h1 : ([hd] ++ [x] ++ T ++ [s] ++ E) = hd :: x :: (T ++ s :: E) := by simp
  rw [h1, joinWith_cons sep hd (by simp), joinWith_cons sep x (by simp)]
  exact ⟨hd ++ sep, sep ++ joinWith sep (T ++ s :: E), by simp⟩

theorem statusLine_mem_output (t : CallTranscript) (parties : Option (List Party))
    (o m : Nat) (ht : t.transcript ≠ [])
    (h : 0 < o ∨ o + m < (transcriptFullText t parties).length) :
    statusLine o m (transcriptFullText t parties).length <:+:
      formatCallTranscript t parties { maxLength := some m, offset := some o } := by
  rw [formatCallTranscript_eq t parties m o ht, if_pos h]
  exact statusLine_infix_joinWith ['\n'] (transcriptHeader t) _ _ _ _

/-- C1: with `o + m < L` (where `L` is the length of the reconstructed full
text) the status line reports the upper bound as exactly `o + m`, that status
line appears in the rendered output, and the first window concatenated with
the continuation window at offset `o + m` is exactly the slice of the full
text from `o` to `o + 2m` — contiguous, with no gap and no duplicate. -/
theorem formatCallTranscript_roundtrip (t : CallTranscript)
    (parties : Option (List Party)) (o m : Nat)
    (h : o + m < (transcriptFullText t parties).length) :
    reportedUpperBound o m (transcriptFullText t parties).length = o + m
    ∧ statusLine o m (transcriptFullText t parties).length <:+:
        formatCallTranscript t parties { maxLength := some m, offset := some o }
    ∧ windowSlice (transcriptFullText t parties) o m
        ++ windowSlice (transcriptFullText t parties) (o + m) m
      = ((transcriptFullText t parties).drop o).take (m + m) := by
  refine ⟨min_eq_left h.le,
    statusLine_mem_output t parties o m (transcriptFullText_ne_nil_of_lt h)
      (Or.inr h), ?_⟩
  rw [windowSlice, windowSlice, List.take_add]
  congr 1
  rw [List.drop_drop]

/-- C1 witness: the round-trip theorem at a concrete transcript with
`o = 1`, `m = 2`. -/
theorem formatCallTranscript_roundtrip_witness :
    reportedUpperBound 1 2 (transcriptFullText sampleTranscript none).length = 1 + 2
    ∧ statusLine 1 2 (transcriptFullText sampleTranscript none).length <:+:
        formatCallTranscript sampleTranscript none { maxLength := some 2, offset := some 1 }
    ∧ windowSlice (transcriptFullText sampleTranscript none) 1 2
        ++ windowSlice (transcriptFullText sampleTranscript none) (1 + 2) 2
      = ((transcriptFullText sampleTranscript none).drop 1).take (2 + 2) :=
  formatCallTranscript_roundtrip sampleTranscript none 1 2 (by decide)

/-- C2: for a transcript with at least one monologue the status line appears
whenever `o > 0` or `o + m < L`; the reported upper bound never exceeds the
total length; and when neither truncation flag holds the output is exactly the
header followed by the plain full text — no status line and no truncation
markers are emitted. -/
theorem formatCallTranscript_statusLine_iff (t : CallTranscript)
    (parties : Option (List Party)) (o m : Nat) (ht : t.transcript ≠ []) :
    ((0 < o ∨ o + m < (transcriptFullText t parties).length) →
       statusLine o m (transcriptFullText t parties).length <:+:
         formatCallTranscript t parties { maxLength := some m, offset := some o })
    ∧ reportedUpperBound o m (transcriptFullText t parties).length
        ≤ (transcriptFullText t parties).length
    ∧ (¬ (0 < o ∨ o + m < (transcriptFullText t parties).length) →
       formatCallTranscript t parties { maxLength := some m, offset := some o }
         = transcriptHeader t ++ '\n' :: transcriptFullText t parties) := by
  refine ⟨statusLine_mem_output t parties o m ht, min_le_right _ _, fun h => ?_⟩
  push_neg at h
  obtain ⟨h1, h2⟩ := h
  have ho : o = 0 := by omega
  have hm : (transcriptFullText t parties).length ≤ m := by omega
  rw [formatCallTranscript_eq t parties m o ht, if_neg (by omega),
    if_neg (by omega), if_neg (by omega)]
  have hslice : windowSlice (transcriptFullText t parties) o m
      = transcriptFullText t parties := by
    rw [windowSlice, ho, List.drop_zero, List.take_of_length_le hm]
  rw [hslice]
  simp [joinWith]

/-- C2 witness: the status-line theorem at a concrete transcript, discharged
both for a truncating request (`o = 3`, `m = 4`) and for a request covering
the whole text (`o = 0`, `m = 500`). -/
theorem formatCallTranscript_statusLine_iff_witness :
    (statusLine 3 4 (transcriptFullText sampleTranscript none).length <:+:
       formatCallTranscript sampleTranscript none { maxLength := some 4, offset := some 3 })
    ∧ reportedUpperBound 3 4 (transcriptFullText sampleTranscript none).length
        ≤ (transcriptFullText sampleTranscript none).length
    ∧ formatCallTranscript sampleTranscript none { maxLength := some 500, offset := some 0 }
        = transcriptHeader sampleTranscript ++ '\n' :: transcriptFullText sampleTranscript none :=
  ⟨(formatCallTranscript_statusLine_iff sampleTranscript none 3 4 (by decide)).1
      (Or.inl (by decide)),
   (formatCallTranscript_statusLine_iff sampleTranscript none 3 4 (by decide)).2.1,
   (formatCallTranscript_statusLine_iff sampleTranscript none 0 500 (by decide)).2.2
      (by decide)⟩

/-- C9: when the offset lies beyond the full text, the formatter still returns
normally; the embedded window slice is empty and the output is the header, the
status line, the truncated-start marker and the empty slice. -/
theorem formatCallTranscript_offsetPastEnd (t : CallTranscript)
    (parties : Option (List Party)) (o m : Nat) (ht : t.transcript ≠ [])
    (ho : (transcriptFullText t parties).length < o) :
    windowSlice (transcriptFullText t parties) o m = []
    ∧ formatCallTranscript t parties { maxLength := some m, offset := some o }
      = joinWith ['\n'] [transcriptHeader t,
          statusLine o m (transcriptFullText t parties).length,
          "*[...truncated start...]*\n".toList, []] := by
  have hslice : windowSlice (transcriptFullText t parties) o m = [] := by
    rw [windowSlice, List.drop_eq_nil_of_le ho.le, List.take_nil]
  refine ⟨hslice, ?_⟩
  rw [formatCallTranscript_eq t parties m o ht,
    if_pos (Or.inl (by omega : 0 < o)), if_pos (by omega : 0 < o),
    if_neg (by omega : ¬ (o + m < (transcriptFullText t parties).length)), hslice]
  simp

/-- C9 witness: the past-the-end theorem at a concrete transcript with
`o = 100`, far beyond the text. -/
theorem formatCallTranscript_offsetPastEnd_witness :
    windowSlice (transcriptFullText sampleTranscript none) 100 7 = []
    ∧ formatCallTranscript sampleTranscript none { maxLength := some 7, offset := some 100 }
      = joinWith ['\n'] [transcriptHeader sampleTranscript,
          statusLine 100 7 (transcriptFullText sampleTranscript none).length,
          "*[...truncated start...]*\n".toList, []] :=
  formatCallTranscript_offsetPastEnd sampleTranscript none 100 7 (by decide) (by decide)

/-- C3: when a successful detail or transcript fetch returns an empty result
set, the tool handler reports `Error: Call not found: <id>` respectively
`Error: Transcript not found: <id>` with the error flag set, instead of
rendering formatter output from an empty record. -/
theorem notFound_reporting (callId : List Char)
    (renderDateTime : List Char → List Char)
    (detailsResult : CallDetailsResponse) (transcriptResult : TranscriptsResponse)
    (transcriptDetails : CallDetailsResponse) (maxLength offset : Nat)
    (hd : detailsResult.calls = [])
    (htr : transcriptResult.callTranscripts = []) :
    runTool (getCallSummaryCore callId detailsResult renderDateTime)
      = { text := "Error: Call not found: ".toList ++ callId, isError := true }
    ∧ runTool (getCallTranscriptCore callId transcriptResult transcriptDetails
        maxLength offset)
      = { text := "Error: Transcript not found: ".toList ++ callId, isError := true } := by
  have hlit1 : "Error: ".toList ++ "Call not found: ".toList
      = "Error: Call not found: ".toList := by decide
  have hlit2 : "Error: ".toList ++ "Transcript not found: ".toList
      = "Error: Transcript not found: ".toList := by decide
  constructor
  · rw [getCallSummaryCore, hd, runTool, ← List.append_assoc, hlit1]
  · rw [getCallTranscriptCore, htr, runTool, ← List.append_assoc, hlit2]

/-- C3 witness: the not-found theorem at call id "42" and concrete empty
responses. -/
theorem notFound_reporting_witness :
    runTool (getCallSummaryCore ("42".toList) emptyDetailsResponse (fun s => s))
      = { text := ("Error: Call not found: 42".toList), isError := true }
    ∧ runTool (getCallTranscriptCore ("42".toList) emptyTranscriptsResponse
        emptyDetailsResponse 10000 0)
      = { text := ("Error: Transcript not found: 42".toList), isError := true } :=
  notFound_reporting ("42".toList) (fun s => s) emptyDetailsResponse
    emptyTranscriptsResponse emptyDetailsResponse 10000 0 rfl rfl

set_option maxRecDepth 8000 in
/-- C4 counterexample: a present duration of `0` renders as the `-`
placeholder, not as a rounded `0m` — the truthiness test
`call.duration ? ... : '-'` sends `0` to the placeholder branch. -/
theorem durationColumn_zero_counterexample :
    durationZeroCall.duration = some 0
    ∧ durationCell (some 0) = "-".toList
    ∧ ("| 123 | - | - | - | - |".toList <:+:
        formatCallsResponse (fun s => s) durationZeroResponse)
    ∧ ¬ ("0m".toList <:+: formatCallsResponse (fun s => s) durationZeroResponse) := by
  refine ⟨rfl, rfl, ?_, ?_⟩ <;> decide

/-- C4 (amended): the Duration column shows the duration in seconds rounded
to the nearest whole minute suffixed `m` exactly when the duration field is
present and nonzero; when it is missing — or present but zero — the column
shows the literal `-` placeholder, never an empty cell.  `(d + 30) / 60` is
the nearest whole minute: it is within 30 seconds of `d / 60` on both sides.
Both list-style rows (`formatCallsResponse` and `formatCallDetailsResponse`)
embed `durationCell` in their Duration column. -/
theorem durationColumn (renderDate : List Char → List Char) (c : Call)
    (cd : CallDetails) (d : Nat) (hd : d ≠ 0) :
    durationCell none = "-".toList
    ∧ durationCell (some 0) = "-".toList
    ∧ durationCell (some d) = (toString ((d + 30) / 60)).toList ++ "m".toList
    ∧ d ≤ 60 * ((d + 30) / 60) + 30 ∧ 60 * ((d + 30) / 60) ≤ d + 30
    ∧ durationCell c.duration ≠ []
    ∧ callRow renderDate c
      = "| ".toList ++ c.id ++ " | ".toList ++ escapeMarkdown (titleCell c.title)
          ++ " | ".toList ++ dateCell renderDate c.started ++ " | ".toList
          ++ durationCell c.duration ++ " | ".toList
          ++ c.scope.getD ("-".toList) ++ " |".toList
    ∧ metaRow renderDate cd
      = "| ".toList ++ cd.metaData.id ++ " | ".toList
          ++ escapeMarkdown (titleCell cd.metaData.title)
          ++ " | ".toList ++ dateCell renderDate cd.metaData.started ++ " | ".toList
          ++ durationCell cd.metaData.duration ++ " | ".toList
          ++ cd.metaData.scope.getD ("-".toList) ++ " |".toList := by
  refine ⟨rfl, rfl, by simp [durationCell, hd], by omega, by omega, ?_, rfl, rfl⟩
  cases hc : c.duration with
  | none => simp [durationCell]
  | some d' =>
    by_cases h0 : d' = 0
    · simp [durationCell, h0]
    · simp only [durationCell, h0, ne_eq, not_false_iff, if_true]
      intro hEq
      have hlen := congrArg List.length hEq
      simp at hlen

/-- C4 witness: the amended theorem at `d = 90` (rounding up to 2m), a call
with duration 1800 and a detailed call with duration 90. -/
theorem durationColumn_witness :
    durationCell none = "-".toList
    ∧ durationCell (some 0) = "-".toList
    ∧ durationCell (some 90) = (toString ((90 + 30) / 60)).toList ++ "m".toList
    ∧ 90 ≤ 60 * ((90 + 30) / 60) + 30 ∧ 60 * ((90 + 30) / 60) ≤ 90 + 30
    ∧ durationCell duration1800Call.duration ≠ []
    ∧ callRow (fun s => s) duration1800Call
      = "| ".toList ++ duration1800Call.id ++ " | ".toList
          ++ escapeMarkdown (titleCell duration1800Call.title)
          ++ " | ".toList ++ dateCell (fun s => s) duration1800Call.started
          ++ " | ".toList ++ durationCell duration1800Call.duration ++ " | ".toList
          ++ duration1800Call.scope.getD ("-".toList) ++ " |".toList
    ∧ metaRow (fun s => s) duration90Details
      = "| ".toList ++ duration90Details.metaData.id ++ " | ".toList
          ++ escapeMarkdown (titleCell duration90Details.metaData.title)
          ++ " | ".toList ++ dateCell (fun s => s) duration90Details.metaData.started
          ++ " | ".toList ++ durationCell duration90Details.metaData.duration
          ++ " | ".toList ++ duration90Details.metaData.scope.getD ("-".toList)
          ++ " |".toList :=
  durationColumn (fun s => s) duration1800Call duration90Details 90 (by decide)

/-- C5: for a `list_calls` or `search_calls` request carrying both
`fromDateTime` and `toDateTime` (field-valid, so each denotes an instant),
validation accepts exactly when the `fromDateTime` instant is strictly before
the `toDateTime` instant — the comparison is between the denoted instants,
`toEpochMillis` (timezone offset applied), not between strings — and
otherwise rejects with the message `fromDateTime must be before toDateTime`. -/
theorem dateRange_validation (f t : IsoDateTime) (rl : ListCallsRequest)
    (rs : SearchCallsRequest) (hf : f.validFields) (ht : t.validFields) :
    (validateListCallsRequest { rl with fromDateTime := some f, toDateTime := some t }
        = Except.ok { rl with fromDateTime := some f, toDateTime := some t }
      ↔ toEpochMillis f < toEpochMillis t)
    ∧ (¬ toEpochMillis f < toEpochMillis t →
        validateListCallsRequest { rl with fromDateTime := some f, toDateTime := some t }
          = Except.error ("fromDateTime must be before toDateTime".toList))
    ∧ (validateSearchCallsRequest { rs with fromDateTime := some f, toDateTime := some t }
        = Except.ok { rs with fromDateTime := some f, toDateTime := some t }
      ↔ toEpochMillis f < toEpochMillis t)
    ∧ (¬ toEpochMillis f < toEpochMillis t →
        validateSearchCallsRequest { rs with fromDateTime := some f, toDateTime := some t }
          = Except.error ("fromDateTime must be before toDateTime".toList)) := by
  by_cases hlt : toEpochMillis f < toEpochMillis t <;>
    simp [validateListCallsRequest, validateSearchCallsRequest, dateRangeOk, hlt]

/-- C5 witness: the validation theorem at concrete instants — a pair whose
clock-time order is reversed by the timezone offsets is accepted, and a pair
denoting the same instant through different offsets is rejected with the
message. -/
theorem dateRange_validation_witness :
    validateListCallsRequest { fromDateTime := some acceptFrom, toDateTime := some acceptTo }
      = Except.ok { fromDateTime := some acceptFrom, toDateTime := some acceptTo }
    ∧ validateListCallsRequest { fromDateTime := some rejectFrom, toDateTime := some rejectTo }
      = Except.error ("fromDateTime must be before toDateTime".toList)
    ∧ validateSearchCallsRequest { fromDateTime := some rejectFrom, toDateTime := some rejectTo }
      = Except.error ("fromDateTime must be before toDateTime".toList) :=
  ⟨((dateRange_validation acceptFrom acceptTo {} {} (by decide) (by decide)).1).mpr
      (by decide),
   (dateRange_validation rejectFrom rejectTo {} {} (by decide) (by decide)).2.1
      (by decide),
   (dateRange_validation rejectFrom rejectTo {} {} (by decide) (by decide)).2.2.2
      (by decide)⟩

/-- C7: `getCallTranscriptRequestSchema` normalizes an omitted `maxLength` to
10000 and an omitted `offset` to 0, accepts `maxLength` across the inclusive
range `[1000, 100000]` with non-negative `offset`, and rejects every
`maxLength` below 1000 or above 100000 and every negative `offset`. -/
theorem getCallTranscript_validation (callId : List Char)
    (hid : isGongId callId = true) (m o : Int) :
    parseGetCallTranscriptRequest { callId := callId }
      = some { callId := callId, maxLength := 10000, offset := 0 }
    ∧ (0 ≤ o → parseGetCallTranscriptRequest { callId := callId, offset := some o }
        = some { callId := callId, maxLength := 10000, offset := o })
    ∧ (1000 ≤ m → m ≤ 100000 →
        parseGetCallTranscriptRequest { callId := callId, maxLength := some m }
        = some { callId := callId, maxLength := m, offset := 0 })
    ∧ (1000 ≤ m → m ≤ 100000 → 0 ≤ o →
        parseGetCallTranscriptRequest
            { callId := callId, maxLength := some m, offset := some o }
        = some { callId := callId, maxLength := m, offset := o })
    ∧ (m < 1000 ∨ 100000 < m →
        parseGetCallTranscriptRequest
            { callId := callId, maxLength := some m, offset := some o }
        = none)
    ∧ (o < 0 →
        parseGetCallTranscriptRequest
            { callId := callId, maxLength := some m, offset := some o }
        = none) := by
  refine ⟨?_, fun ho => ?_, fun h1 h2 => ?_, fun h1 h2 ho => ?_,
      fun hbad => ?_, fun hneg => ?_⟩ <;>
    simp only [parseGetCallTranscriptRequest, hid, if_true, Option.getD_some,
      Option.getD_none]
  · rw [if_pos (by omega)]
  · rw [if_pos (by omega)]
  · rw [if_pos (by omega)]
  · rw [if_pos (by omega)]
  · rw [if_neg (by omega)]
  · rw [if_neg (by omega)]

/-- C7 witness: the validation theorem at call id "123": the defaults, both
inclusive bounds, and rejections just outside each bound. -/
theorem getCallTranscript_validation_witness :
    parseGetCallTranscriptRequest { callId := "123".toList }
      = some { callId := "123".toList, maxLength := 10000, offset := 0 }
    ∧ parseGetCallTranscriptRequest
        { callId := "123".toList, maxLength := some 1000, offset := some 5 }
      = some { callId := "123".toList, maxLength := 1000, offset := 5 }
    ∧ parseGetCallTranscriptRequest
        { callId := "123".toList, maxLength := some 100000, offset := some 0 }
      = some { callId := "123".toList, maxLength := 100000, offset := 0 }
    ∧ parseGetCallTranscriptRequest
        { callId := "123".toList, maxLength := some 999, offset := some 0 } = none
    ∧ parseGetCallTranscriptRequest
        { callId := "123".toList, maxLength := some 100001, offset := some 0 } = none
    ∧ parseGetCallTranscriptRequest
        { callId := "123".toList, maxLength := some 10000, offset := some (-1) } = none :=
  ⟨(getCallTranscript_validation ("123".toList) (by decide) 0 0).1,
   (getCallTranscript_validation ("123".toList) (by decide) 1000 5).2.2.2.1
     (by decide) (by decide) (by decide),
   (getCallTranscript_validation ("123".toList) (by decide) 100000 0).2.2.2.1
     (by decide) (by decide) (by decide),
   (getCallTranscript_validation ("123".toList) (by decide) 999 0).2.2.2.2.1
     (Or.inl (by decide)),
   (getCallTranscript_validation ("123".toList) (by decide) 100001 0).2.2.2.2.1
     (Or.inr (by decide)),
   (getCallTranscript_validation ("123".toList) (by decide) 10000 (-1)).2.2.2.2.2
     (by decide)⟩

/-- C8: in the bodies built by `GongClient.searchCalls` and
`GongClient.searchUsers`, an array filter field supplied as the empty array is
omitted from the `filter` sub-object, and the pagination cursor, when supplied
(non-empty, as the cursor schema guarantees), is set as a top-level body
field while the `filter` sub-object is independent of it. -/
theorem searchBody_shape (co : SearchCallsOptions) (uo : SearchUsersOptions)
    (c : List Char) :
    (co.primaryUserIds = some [] → (buildSearchCallsBody co).filter.primaryUserIds = none)
    ∧ (co.callIds = some [] → (buildSearchCallsBody co).filter.callIds = none)
    ∧ (uo.userIds = some [] → (buildSearchUsersBody uo).filter.userIds = none)
    ∧ (co.cursor = some c → c ≠ [] → (buildSearchCallsBody co).cursor = some c)
    ∧ (uo.cursor = some c → c ≠ [] → (buildSearchUsersBody uo).cursor = some c)
    ∧ (buildSearchCallsBody { co with cursor := some c }).filter
        = (buildSearchCallsBody co).filter
    ∧ (buildSearchUsersBody { uo with cursor := some c }).filter
        = (buildSearchUsersBody uo).filter := by
  refine ⟨fun h => ?_, fun h => ?_, fun h => ?_, fun h hc => ?_, fun h hc => ?_,
      rfl, rfl⟩ <;>
    simp [buildSearchCallsBody, buildSearchUsersBody, setIfTruthy, h]
  · exact hc
  · exact hc

/-- C8 witness: the body-shape theorem at concrete options with empty array
filters and the cursor "cur". -/
theorem searchBody_shape_witness :
    (buildSearchCallsBody emptyArraysCallsOptions).filter.primaryUserIds = none
    ∧ (buildSearchCallsBody emptyArraysCallsOptions).filter.callIds = none
    ∧ (buildSearchUsersBody emptyArraysUsersOptions).filter.userIds = none
    ∧ (buildSearchCallsBody emptyArraysCallsOptions).cursor = some ("cur".toList)
    ∧ (buildSearchUsersBody emptyArraysUsersOptions).cursor = some ("cur".toList)
    ∧ (buildSearchCallsBody { emptyArraysCallsOptions with cursor := some ("cur".toList) }).filter
        = (buildSearchCallsBody emptyArraysCallsOptions).filter
    ∧ (buildSearchUsersBody { emptyArraysUsersOptions with cursor := some ("cur".toList) }).filter
        = (buildSearchUsersBody emptyArraysUsersOptions).filter :=
  ⟨(searchBody_shape emptyArraysCallsOptions emptyArraysUsersOptions ("cur".toList)).1 rfl,
   (searchBody_shape emptyArraysCallsOptions emptyArraysUsersOptions ("cur".toList)).2.1 rfl,
   (searchBody_shape emptyArraysCallsOptions emptyArraysUsersOptions ("cur".toList)).2.2.1 rfl,
   (searchBody_shape emptyArraysCallsOptions emptyArraysUsersOptions ("cur".toList)).2.2.2.1
     rfl (by decide),
   (searchBody_shape emptyArraysCallsOptions emptyArraysUsersOptions ("cur".toList)).2.2.2.2.1
     rfl (by decide),
   (searchBody_shape emptyArraysCallsOptions emptyArraysUsersOptions ("cur".toList)).2.2.2.2.2.1,
   (searchBody_shape emptyArraysCallsOptions emptyArraysUsersOptions ("cur".toList)).2.2.2.2.2.2⟩

end Gongio
